import Mathlib

/-!
Shallow embedding of the authentication core of the `i.s.t.d-pro-server`
repository (Node/Express + Mongoose), covering:
  * `src/models/User.js` — the user schema (field validation, the unique and
    normalizing email key, the pre-save bcrypt hashing hook, `matchPassword`);
  * `src/controllers/authController.js` — `generateToken`,
    `generateRefreshToken`, `register`, `login` (the `refreshToken`
    controller body is absent from the source file, which ends right after
    its section header; it is modelled from the spec, see `refreshTokenOp`);
  * `src/config/database.js` and `server.js` — startup sequence.
Machine integers do not occur; times are seconds as `Nat`, ids are `Nat`.
-/

namespace ISTD

/-- User roles: `userSchema.role` has `enum: ['admin', 'employee']`. -/
inductive Role where
  | admin
  | employee
deriving DecidableEq, Repr

/-- Whitespace trimming (JS `String.prototype.trim` as used by the
Mongoose `trim: true` setter), implemented structurally on the character
list so that it reduces in the kernel. -/
def trimChars (l : List Char) : List Char :=
  ((l.dropWhile Char.isWhitespace).reverse.dropWhile Char.isWhitespace).reverse

/-- `trim` on strings. -/
def strTrim (s : String) : String := ⟨trimChars s.data⟩

/-- `toLowerCase` on strings (the Mongoose `lowercase: true` setter). -/
def strLower (s : String) : String := ⟨s.data.map Char.toLower⟩

/-- Mongoose schema options `lowercase: true, trim: true` on `email`:
the stored (and, in Mongoose ≥ 6, the queried) value is trimmed and
lowercased. -/
def normalizeEmail (e : String) : String := strLower (strTrim e)

/-- JavaScript regex `\w` (no unicode flag): ASCII letters, digits, `_`. -/
def isWordChar (c : Char) : Bool := c.isAlpha || c.isDigit || c = '_'

/-- The separator class `[\.-]` of the email regex. -/
def isSepChar (c : Char) : Bool := c = '.' || c = '-'

/-- No two adjacent separator characters (each optional `[\.-]?` in the regex
is followed by at least one `\w`). -/
def noAdjSep : List Char → Bool
  | [] => true
  | [_] => true
  | a :: b :: rest => !(isSepChar a && isSepChar b) && noAdjSep (b :: rest)

/-- Language of `\w+([\.-]?\w+)*`: nonempty, only word/separator characters,
starts and ends with a word character, no two adjacent separators. -/
def localOk (l : List Char) : Bool :=
  !l.isEmpty &&
  l.all (fun c => isWordChar c || isSepChar c) &&
  (match l.head? with | some c => isWordChar c | none => false) &&
  (match l.getLast? with | some c => isWordChar c | none => false) &&
  noAdjSep l

/-- Fueled matcher for `(\.\w{2,3})+` (each iteration consumes ≥ 3
characters, so fuel = length is always enough). -/
def tldOkF : Nat → List Char → Bool
  | 0, _ => false
  | fuel + 1, '.' :: a :: b :: rest =>
    isWordChar a && isWordChar b &&
      (rest.isEmpty || tldOkF fuel rest ||
        (match rest with
         | c :: rest2 => isWordChar c && (rest2.isEmpty || tldOkF fuel rest2)
         | [] => false))
  | _ + 1, _ => false

/-- Matches `(\.\w{2,3})+` exactly. -/
def tldOk (l : List Char) : Bool := tldOkF l.length l

/-- Language of the domain part `\w+([\.-]?\w+)*(\.\w{2,3})+`:
some split into a `localOk` part followed by a `tldOk` part
(backtracking regex = language membership, so trying all splits is exact). -/
def domainOk (l : List Char) : Bool :=
  (List.range (l.length + 1)).any (fun i => localOk (l.take i) && tldOk (l.drop i))

/-- The schema's email `match` validator
`/^\w+([\.-]?\w+)*@\w+([\.-]?\w+)*(\.\w{2,3})+$/`: neither character class
contains `@`, so a matching string has exactly one `@`, a local part and a
domain part. -/
def validEmail (s : String) : Bool :=
  match s.data.splitOn '@' with
  | [lp, dom] => localOk lp && domainOk dom
  | _ => false

/-- Modelled from the spec: the password hasher (the `bcryptjs` library,
not part of this repository's sources) per §4.2 — a salted one-way
transform; the salt is recorded in the hash, and verification re-derives
the digest from the candidate plaintext and the recorded salt. The digest
is idealized as an injective function of (salt, plaintext). -/
structure BcryptHash where
  salt : Nat
  digest : List Char
deriving DecidableEq, Repr

/-- Modelled from the spec: the digest computation, idealized injective. -/
def bcryptDigest (salt : Nat) (p : String) : List Char :=
  (toString salt).data ++ '#' :: p.data

/-- Modelled from the spec: `bcrypt.hash(p, salt)` — salted one-way hash. -/
def bcryptHash (salt : Nat) (p : String) : BcryptHash :=
  ⟨salt, bcryptDigest salt p⟩

/-- Modelled from the spec: `bcrypt.compare(p, h)` — recompute the digest
with the salt recorded in `h` and compare. -/
def bcryptCompare (p : String) (h : BcryptHash) : Bool :=
  bcryptDigest h.salt p == h.digest

/-- A stored user record (`User` document): `_id` assigned by the store,
`name` trimmed, `email` normalized, `password` holds the bcrypt hash after
the pre-save hook ran, `role` from the enum. -/
structure StoredUser where
  id : Nat
  name : String
  email : String
  password : BcryptHash
  role : Role
deriving DecidableEq, Repr

/-- The public user view serialized in responses (`{ id, name, email, role }`)
and also the shape of a default read (the `password` field has
`select: false`, so it is absent unless `.select('+password')` is used).
It has exactly the four fields id, name, email, role and no password field. -/
structure UserView where
  id : Nat
  name : String
  email : String
  role : Role
deriving DecidableEq, Repr

/-- Project a stored record to its public view. -/
def publicView (u : StoredUser) : UserView :=
  ⟨u.id, u.name, u.email, u.role⟩

/-- `userSchema.methods.matchPassword`: `bcrypt.compare(entered, this.password)`. -/
def StoredUser.matchPassword (u : StoredUser) (entered : String) : Bool :=
  bcryptCompare entered u.password

/-- The user collection: stored documents plus the next `_id` to assign. -/
structure DB where
  users : List StoredUser
  nextId : Nat
deriving DecidableEq, Repr

def dbEmpty : DB := ⟨[], 0⟩

/-- `User.findOne({ email }).select('+password')`: Mongoose applies the
schema setters (lowercase, trim) to the query filter, so the lookup is on
the normalized key; returns the first match including the password hash. -/
def findByEmailWithSecret (db : DB) (e : String) : Option StoredUser :=
  db.users.find? (fun u => u.email == normalizeEmail e)

/-- `User.findOne({ email })` — default read: same lookup, but `select: false`
on `password` means the result carries only the public fields. -/
def findByEmail (db : DB) (e : String) : Option UserView :=
  (findByEmailWithSecret db e).map publicView

/-- The store-level uniqueness invariant from `unique: true` on `email`:
no two stored records share the (normalized) email key. -/
def emailsUnique (db : DB) : Prop :=
  db.users.Pairwise (fun u v => u.email ≠ v.email)

/-- `User.create({name, email, password, role})`: Mongoose runs the setters
(trim on `name`, trim+lowercase on `email`), then validation (`required` on
all three, the email `match` regex, `minlength: 6` on the plaintext
password — validation precedes the pre-save hook, so the length bound
applies to the plaintext), then the pre-save hook hashes the password, and
the insert enforces the unique index on `email`. On success returns the
stored document and the new collection state; on any failure the
collection is unchanged and the error message is thrown (caught by the
controller's `catch`). `salt` is the random salt drawn by `bcrypt.genSalt`. -/
def createUser (db : DB) (salt : Nat) (name email password : String)
    (role : Role) : Except String (StoredUser × DB) :=
  if strTrim name = "" then .error "Please provide a name"
  else if !(validEmail (normalizeEmail email)) then
    .error "Please provide a valid email address"
  else if password = "" then .error "Please proovide a password"
  else if password.length < 6 then
    .error "Path password is shorter than the minimum allowed length (6)"
  else if db.users.any (fun u => u.email == normalizeEmail email) then
    .error "E11000 duplicate key error"
  else
    .ok (⟨db.nextId, strTrim name, normalizeEmail email, bcryptHash salt password, role⟩,
         ⟨db.users ++ [⟨db.nextId, strTrim name, normalizeEmail email,
            bcryptHash salt password, role⟩], db.nextId + 1⟩)

/-- JWT payload as produced by `jwt.sign({ id }, secret, { expiresIn })`:
the subject id plus the standard `iat`/`exp` claims (seconds). There is no
other claim — in particular no token-class tag. -/
structure TokenPayload where
  id : Nat
  iat : Nat
  exp : Nat
deriving DecidableEq, Repr

/-- A bearer token: either a structurally valid JWT — the `secret` field
models the signature, which verifies exactly under the secret that signed
it — or a structurally malformed string. -/
inductive Token where
  | signed (payload : TokenPayload) (secret : String)
  | malformed (raw : String)
deriving DecidableEq, Repr

/-- Failure modes of `jwt.verify`. -/
inductive TokenError where
  | expired
  | invalidSignature
  | malformed
deriving DecidableEq, Repr

/-- Process environment: `MONGO_URI`, `JWT_SECRET`, `JWT_REFRESH_SECRET`
(each possibly absent). -/
structure Env where
  mongoUri : Option String
  jwtSecret : Option String
  jwtRefreshSecret : Option String
deriving DecidableEq, Repr

/-- `generateToken` (`authController.js`):
`jwt.sign({ id }, process.env.JWT_SECRET, { expiresIn: '7d' })`.
`jwt.sign` throws when the secret is absent
(`secretOrPrivateKey must have a value`), which the controller's `catch`
turns into a 500 — so issuance is fallible. 7 days = 604800 seconds. -/
def generateToken (secret : Option String) (now id : Nat) : Except String Token :=
  match secret with
  | none => .error "secretOrPrivateKey must have a value"
  | some s => .ok (.signed ⟨id, now, now + 604800⟩ s)

/-- `generateRefreshToken` (`authController.js`):
`jwt.sign({ id }, process.env.JWT_REFRESH_SECRET, { expiresIn: '30d' })`.
30 days = 2592000 seconds. -/
def generateRefreshToken (secret : Option String) (now id : Nat) :
    Except String Token :=
  match secret with
  | none => .error "secretOrPrivateKey must have a value"
  | some s => .ok (.signed ⟨id, now, now + 2592000⟩ s)

/-- Modelled from the spec: `jwt.verify(token, secret)` of the
`jsonwebtoken` library (not part of this repository's sources), per §4.3:
malformed shape fails `TokenMalformed`; the signature is checked before any
claim is trusted, failing `TokenInvalidSignature` when the token was not
signed with `secret`; then `TokenExpired` when the expiry has passed;
otherwise the embedded user id is returned. -/
def verifyJwt (secret : Option String) (now : Nat) (t : Token) :
    Except TokenError Nat :=
  match t with
  | .malformed _ => .error .malformed
  | .signed payload sig =>
    match secret with
    | none => .error .invalidSignature
    | some s =>
      if sig ≠ s then .error .invalidSignature
      else if payload.exp ≤ now then .error .expired
      else .ok payload.id

/-- Access-token verification: `jwt.verify` under `JWT_SECRET`. -/
def verifyAccess (env : Env) (now : Nat) (t : Token) : Except TokenError Nat :=
  verifyJwt env.jwtSecret now t

/-- Refresh-token verification: `jwt.verify` under `JWT_REFRESH_SECRET`. -/
def verifyRefresh (env : Env) (now : Nat) (t : Token) : Except TokenError Nat :=
  verifyJwt env.jwtRefreshSecret now t

/-- A controller response. `success st tok rtok user` models the JSON
success body (`token`, optional `refreshToken`, optional `user` view) with
HTTP status `st`; `failure st msg` models `{ success: false, message }`
with status `st`. The view carries exactly id, name, email, role. -/
inductive AuthResp where
  | success (status : Nat) (token : Token) (refreshToken : Option Token)
      (user : Option UserView)
  | failure (status : Nat) (message : String)
deriving DecidableEq, Repr

/-- A registration request body (`role` optional; an enum-valid role or
absent). -/
structure RegisterReq where
  name : String
  email : String
  password : String
  role : Option Role
deriving DecidableEq, Repr

/-- `exports.register` (`authController.js`): validate presence of
name/email/password (400); look up the email with a default read (400
`Email already registered` when found); `User.create` with
`role: role || 'employee'` (any thrown error is caught → 500, store
unchanged); then generate both tokens — a token-signing error is also
caught → 500, but the `create` write has already been committed, so the
returned store keeps the new record; on success respond 201 with the token
pair and the public user view. Returns the response and the resulting
store. `now` is the current time, `salt` the salt drawn by the pre-save
hook. -/
def register (env : Env) (db : DB) (now salt : Nat) (req : RegisterReq) :
    AuthResp × DB :=
  if req.name = "" || req.email = "" || req.password = "" then
    (.failure 400 "Please provide name, email, and password", db)
  else
    match findByEmail db req.email with
    | some _ => (.failure 400 "Email already registered", db)
    | none =>
      match createUser db salt req.name req.email req.password
          (req.role.getD .employee) with
      | .error m => (.failure 500 m, db)
      | .ok (u, db') =>
        match generateToken env.jwtSecret now u.id with
        | .error m => (.failure 500 m, db')
        | .ok tok =>
          match generateRefreshToken env.jwtRefreshSecret now u.id with
          | .error m => (.failure 500 m, db')
          | .ok rtok => (.success 201 tok (some rtok) (some (publicView u)), db')

/-- `exports.login` (`authController.js`): validate presence (400); look up
via `findOne({email}).select('+password')`; no user → 401
`Invalid credentials` (short-circuits: no hash comparison); then
`matchPassword` — mismatch → 401 `invalid credentials` (note the lowercase
`i`, as in the source); on success issue both tokens (signing errors
caught → 500) and respond 200 with the token pair and the public view.
Reads only — the store is not returned. -/
def login (env : Env) (db : DB) (now : Nat) (email password : String) :
    AuthResp :=
  if email = "" || password = "" then
    .failure 400 "Please provide email and password"
  else
    match findByEmailWithSecret db email with
    | none => .failure 401 "Invalid credentials"
    | some u =>
      if !(u.matchPassword password) then .failure 401 "invalid credentials"
      else
        match generateToken env.jwtSecret now u.id with
        | .error m => .failure 500 m
        | .ok tok =>
          match generateRefreshToken env.jwtRefreshSecret now u.id with
          | .error m => .failure 500 m
          | .ok rtok => .success 200 tok (some rtok) (some (publicView u))

/-- Number of bcrypt comparisons `login` performs on the path taken
(transcribed from the same branch structure as `login`): the
missing-input and no-user branches return before any comparison; a found
user is compared exactly once. -/
def loginBcryptCalls (db : DB) (email password : String) : Nat :=
  if email = "" || password = "" then 0
  else
    match findByEmailWithSecret db email with
    | none => 0
    | some _ => 1

/-- Modelled from the spec: the `refreshToken` controller. Its body is
absent from `src/controllers/authController.js` (the file ends right after
the `CONTROLLER: Refresh Token` section header; `routes/auth.js` imports
and mounts it). Per §4.4 Refresh: missing input → 400 ValidationError;
`verifyRefresh` failure (expired / bad signature / malformed) → 401
Unauthorized; on success re-derive the user id from the verified claim and
issue a new access token only — the refresh token is not rotated and no
user view is returned (a signing error is caught → 500). -/
def refreshTokenOp (env : Env) (now : Nat) (tok : Option Token) : AuthResp :=
  match tok with
  | none => .failure 400 "Please provide a refresh token"
  | some t =>
    match verifyRefresh env now t with
    | .error _ => .failure 401 "Invalid or expired refresh token"
    | .ok uid =>
      match generateToken env.jwtSecret now uid with
      | .error m => .failure 500 m
      | .ok newTok => .success 200 newTok none none

/-- `connectDB` (`src/config/database.js`): `mongoose.connect(MONGO_URI)`;
a missing/invalid URI throws, is caught, and the process exits
(`process.exit(1)`). `true` = connected, `false` = process exited. -/
def connectDB (env : Env) : Bool := env.mongoUri.isSome

/-- `server.js` startup sequence: `connectDB()` then `app.listen(PORT)`.
No other configuration is checked — in particular neither `JWT_SECRET` nor
`JWT_REFRESH_SECRET` is read at startup. `true` = the server is listening. -/
def startup (env : Env) : Bool := connectDB env

/-- States of the user store reachable from the empty store by the
operations of this core (only `register` writes; `login` and
`refreshTokenOp` are reads). -/
inductive Reachable : DB → Prop where
  | init : Reachable dbEmpty
  | step (env : Env) (db : DB) (now salt : Nat) (req : RegisterReq) :
      Reachable db → Reachable (register env db now salt req).2

/-! ### Fixtures for concrete witnesses and counterexamples -/

/-- A fully configured environment. -/
def envFull : Env := ⟨some "mongodb://localhost/istd", some "acc", some "ref"⟩

/-- An environment with the DB URI present but both signing secrets absent. -/
def envNoSecrets : Env := ⟨some "mongodb://localhost/istd", none, none⟩

def reqAnn : RegisterReq := ⟨"Ann", "ann@x.com", "secret123", none⟩

def reqBob : RegisterReq := ⟨"Bob", "bob@y.com", "hunter22", some .admin⟩

/-- The store after Ann registered (hash of `secret123` under salt 5). -/
def dbAnn : DB :=
  ⟨[⟨0, "Ann", "ann@x.com", bcryptHash 5 "secret123", .employee⟩], 1⟩

/-- The record `User.create` stores for a registration request: next id,
trimmed name, normalized email, hashed password, defaulted role. -/
def newUser (db : DB) (salt : Nat) (req : RegisterReq) : StoredUser :=
  ⟨db.nextId, strTrim req.name, normalizeEmail req.email,
   bcryptHash salt req.password, req.role.getD .employee⟩

/-! ### Helper lemmas -/

theorem bcryptCompare_hash_self (salt : Nat) (p : String) :
    bcryptCompare p (bcryptHash salt p) = true := by
  simp [bcryptCompare, bcryptHash]

theorem bcryptDigest_inj {s : Nat} {p q : String}
    (h : bcryptDigest s p = bcryptDigest s q) : p = q := by
  unfold bcryptDigest at h
  have h2 := List.append_cancel_left h
  exact String.ext (by simpa using h2)

theorem bcryptCompare_hash_ne {salt : Nat} {p q : String} (h : p ≠ q) :
    bcryptCompare p (bcryptHash salt q) = false := by
  simp only [bcryptCompare, bcryptHash]
  rw [beq_eq_false_iff_ne]
  exact fun he => h (bcryptDigest_inj he)

theorem password_ne_empty_of_len {p : String} (h : 6 ≤ p.length) : p ≠ "" := by
  intro he; subst he; simp [String.length] at h

/-- Full characterization of a successful store write. -/
theorem createUser_ok_iff (db : DB) (salt : Nat) (name email password : String)
    (role : Role) (u : StoredUser) (db' : DB) :
    createUser db salt name email password role = .ok (u, db') ↔
      (strTrim name ≠ "" ∧ validEmail (normalizeEmail email) = true ∧
       6 ≤ password.length ∧
       (∀ v ∈ db.users, v.email ≠ normalizeEmail email) ∧
       u = ⟨db.nextId, strTrim name, normalizeEmail email,
            bcryptHash salt password, role⟩ ∧
       db' = ⟨db.users ++ [u], db.nextId + 1⟩) := by
  constructor
  · intro h
    unfold createUser at h
    split at h
    · cases h
    · split at h
      · cases h
      · split at h
        · cases h
        · split at h
          · cases h
          · split at h
            · cases h
            · rename_i h1 h2 h3 h4 h5
              injection h with h'
              injection h' with hu hdb
              refine ⟨h1, by simpa using h2, by omega, ?_, hu.symm, ?_⟩
              · intro v hv
                have := (List.any_eq_true.not.mp h5)
                push_neg at this
                have hne := this v hv
                simpa using hne
              · rw [hdb.symm, hu]
  · rintro ⟨h1, h2, h3, h4, rfl, rfl⟩
    unfold createUser
    rw [if_neg h1, if_neg (by simp [h2]), if_neg (password_ne_empty_of_len h3),
      if_neg (by omega), if_neg ?_]
    intro hc
    obtain ⟨v, hv, hveq⟩ := List.any_eq_true.mp hc
    exact h4 v hv (by simpa using hveq)

/-- Any failing store write leaves the collection unchanged. -/
theorem createUser_error_shape (db : DB) (salt : Nat)
    (name email password : String) (role : Role) :
    (∃ m, createUser db salt name email password role = .error m) ∨
    (∃ u db', createUser db salt name email password role = .ok (u, db')) := by
  unfold createUser
  split
  · exact .inl ⟨_, rfl⟩
  · split
    · exact .inl ⟨_, rfl⟩
    · split
      · exact .inl ⟨_, rfl⟩
      · split
        · exact .inl ⟨_, rfl⟩
        · split
          · exact .inl ⟨_, rfl⟩
          · exact .inr ⟨_, _, rfl⟩

theorem findByEmail_none (db : DB) (e : String)
    (h : findByEmail db e = none) : findByEmailWithSecret db e = none := by
  simpa [findByEmail] using h

theorem fresh_of_findByEmail_none (db : DB) (e : String)
    (h : findByEmail db e = none) :
    ∀ v ∈ db.users, v.email ≠ normalizeEmail e := by
  intro v hv
  have := List.find?_eq_none.mp (findByEmail_none db e h) v hv
  simpa using this

/-- A successful registration, fully computed. -/
theorem register_success_eq (env : Env) (db : DB) (now salt : Nat)
    (req : RegisterReq) (sA sR : String)
    (hA : env.jwtSecret = some sA) (hR : env.jwtRefreshSecret = some sR)
    (hname : strTrim req.name ≠ "") (hemail : req.email ≠ "")
    (hval : validEmail (normalizeEmail req.email) = true)
    (hpw : 6 ≤ req.password.length)
    (hfresh : findByEmail db req.email = none) :
    register env db now salt req =
      (.success 201 (.signed ⟨db.nextId, now, now + 604800⟩ sA)
         (some (.signed ⟨db.nextId, now, now + 2592000⟩ sR))
         (some (publicView (newUser db salt req))),
       ⟨db.users ++ [newUser db salt req], db.nextId + 1⟩) := by
  have hn : req.name ≠ "" := fun h => hname (by rw [h]; decide)
  have hp : req.password ≠ "" := password_ne_empty_of_len hpw
  have hcu : createUser db salt req.name req.email req.password
      (req.role.getD .employee) = .ok (newUser db salt req,
        ⟨db.users ++ [newUser db salt req], db.nextId + 1⟩) :=
    (createUser_ok_iff db salt req.name req.email req.password
      (req.role.getD .employee) (newUser db salt req)
      ⟨db.users ++ [newUser db salt req], db.nextId + 1⟩).mpr
      ⟨hname, hval, hpw, fresh_of_findByEmail_none db req.email hfresh, rfl, rfl⟩
  unfold register
  rw [if_neg (by simp [hn, hemail, hp]), hfresh, hcu]
  simp [generateToken, generateRefreshToken, hA, hR, newUser]

/-- A successful login, fully computed. -/
theorem login_success_eq (env : Env) (db : DB) (now : Nat)
    (email password : String) (u : StoredUser) (sA sR : String)
    (hA : env.jwtSecret = some sA) (hR : env.jwtRefreshSecret = some sR)
    (hemail : email ≠ "") (hpw : password ≠ "")
    (hfind : findByEmailWithSecret db email = some u)
    (hmatch : u.matchPassword password = true) :
    login env db now email password =
      .success 200 (.signed ⟨u.id, now, now + 604800⟩ sA)
        (some (.signed ⟨u.id, now, now + 2592000⟩ sR))
        (some (publicView u)) := by
  unfold login
  rw [if_neg (by simp [hemail, hpw]), hfind]
  simp [generateToken, generateRefreshToken, hA, hR, hmatch]

/-- Case analysis of `register`: either it fails without touching the
store, or the single `create` write went through — and then it either
responds 201 with the new user's view, or a token-signing failure turns
into a 500 with the write already committed. -/
theorem register_cases (env : Env) (db : DB) (now salt : Nat)
    (req : RegisterReq) :
    (∃ st m, register env db now salt req = (.failure st m, db)) ∨
    (∃ u db2, createUser db salt req.name req.email req.password
        (req.role.getD .employee) = .ok (u, db2) ∧
      ((∃ m, register env db now salt req = (.failure 500 m, db2)) ∨
       (∃ tok rtok, register env db now salt req =
          (.success 201 tok (some rtok) (some (publicView u)), db2)))) := by
  unfold register
  split
  · exact .inl ⟨_, _, rfl⟩
  · split
    · exact .inl ⟨_, _, rfl⟩
    · split
      · exact .inl ⟨_, _, rfl⟩
      · rename_i heq
        split
        · exact .inr ⟨_, _, heq, .inl ⟨_, rfl⟩⟩
        · split
          · exact .inr ⟨_, _, heq, .inl ⟨_, rfl⟩⟩
          · exact .inr ⟨_, _, heq, .inr ⟨_, _, rfl⟩⟩

/-- A successful login response's view is the public projection of a
stored record found by the with-secret lookup. -/
theorem login_success_inv (env : Env) (db : DB) (now : Nat)
    (email password : String) (st : Nat) (tok : Token) (rtok : Option Token)
    (v : Option UserView)
    (h : login env db now email password = .success st tok rtok v) :
    ∃ u, findByEmailWithSecret db email = some u ∧
      v = some (publicView u) ∧ st = 200 := by
  unfold login at h
  split at h
  · cases h
  · split at h
    · cases h
    · rename_i u heq
      split at h
      · cases h
      · split at h
        · cases h
        · split at h
          · cases h
          · injection h with h1 h2 h3 h4
            exact ⟨u, heq, h4.symm, h1.symm⟩

theorem verifyJwt_signed_some (s : String) (now : Nat) (p : TokenPayload)
    (sig : String) :
    verifyJwt (some s) now (.signed p sig) =
      if sig ≠ s then .error .invalidSignature
      else if p.exp ≤ now then .error .expired else .ok p.id := rfl

theorem refreshTokenOp_some (env : Env) (now : Nat) (t : Token) :
    refreshTokenOp env now (some t) =
      match verifyRefresh env now t with
      | .error _ => .failure 401 "Invalid or expired refresh token"
      | .ok uid =>
        match generateToken env.jwtSecret now uid with
        | .error m => .failure 500 m
        | .ok newTok => .success 200 newTok none none := rfl

/-- Registering an email that a default read already finds fails with the
duplicate error and leaves the store unchanged. -/
theorem register_dup (env : Env) (db : DB) (now salt : Nat)
    (req : RegisterReq) (hname : req.name ≠ "") (hemail : req.email ≠ "")
    (hpw : req.password ≠ "") (w : UserView)
    (hfound : findByEmail db req.email = some w) :
    register env db now salt req =
      (.failure 400 "Email already registered", db) := by
  unfold register
  rw [if_neg (by simp [hname, hemail, hpw]), hfound]

/-! ### Claims -/

/-- C7: `hash(p)` under two distinct salts yields two different outputs,
both accepted by `verify(p, ·)`; for distinct plaintexts `p ≠ q`,
`verify(p, hash(q))` is false under either salt. -/
theorem c7_hash_verify (p q : String) (s1 s2 : Nat) (hs : s1 ≠ s2)
    (hpq : p ≠ q) :
    bcryptHash s1 p ≠ bcryptHash s2 p ∧
    bcryptCompare p (bcryptHash s1 p) = true ∧
    bcryptCompare p (bcryptHash s2 p) = true ∧
    bcryptCompare p (bcryptHash s1 q) = false ∧
    bcryptCompare p (bcryptHash s2 q) = false := by
  refine ⟨?_, bcryptCompare_hash_self s1 p, bcryptCompare_hash_self s2 p,
    bcryptCompare_hash_ne hpq, bcryptCompare_hash_ne hpq⟩
  intro h
  exact hs (congrArg BcryptHash.salt h)

theorem c7_witness :
    bcryptHash 0 "secret123" ≠ bcryptHash 1 "secret123" ∧
    bcryptCompare "secret123" (bcryptHash 0 "secret123") = true ∧
    bcryptCompare "secret123" (bcryptHash 1 "secret123") = true ∧
    bcryptCompare "secret123" (bcryptHash 0 "hunter22") = false ∧
    bcryptCompare "secret123" (bcryptHash 1 "hunter22") = false :=
  c7_hash_verify "secret123" "hunter22" 0 1 (by decide) (by decide)

/-- C3 counterexample: there is no embedded token-class tag — both issuers
sign the bare `{id, iat, exp}` payload, so when the two secrets hold the
same value a refresh-issued token is accepted by access verification (and
an access-issued one by refresh verification). The classes are
distinguished merely by which secret signs, contradicting the claim's
tag-based distinction and its unconditional mutual rejection. -/
theorem c3_counterexample :
    generateToken (some "sec") 0 7 = .ok (.signed ⟨7, 0, 604800⟩ "sec") ∧
    generateRefreshToken (some "sec") 0 7 =
      .ok (.signed ⟨7, 0, 2592000⟩ "sec") ∧
    verifyJwt (some "sec") 1 (.signed ⟨7, 0, 2592000⟩ "sec") = .ok 7 ∧
    verifyJwt (some "sec") 1 (.signed ⟨7, 0, 604800⟩ "sec") = .ok 7 :=
  ⟨rfl, rfl, rfl, rfl⟩

/-- C3 (amended): provided the two signing secrets are distinct, a token
issued by `generateToken` is accepted by `verifyAccess` and rejected by
`verifyRefresh` with `TokenInvalidSignature`, and symmetrically for
`generateRefreshToken` — the distinction is by signing secret alone, since
the payload carries no token-class tag. -/
theorem c3_class_separation (env : Env) (sA sR : String) (id now now2 : Nat)
    (hA : env.jwtSecret = some sA) (hR : env.jwtRefreshSecret = some sR)
    (hne : sA ≠ sR) (h7 : now2 < now + 604800) (h30 : now2 < now + 2592000) :
    generateToken env.jwtSecret now id =
      .ok (.signed ⟨id, now, now + 604800⟩ sA) ∧
    generateRefreshToken env.jwtRefreshSecret now id =
      .ok (.signed ⟨id, now, now + 2592000⟩ sR) ∧
    verifyAccess env now2 (.signed ⟨id, now, now + 604800⟩ sA) = .ok id ∧
    verifyRefresh env now2 (.signed ⟨id, now, now + 604800⟩ sA) =
      .error .invalidSignature ∧
    verifyRefresh env now2 (.signed ⟨id, now, now + 2592000⟩ sR) = .ok id ∧
    verifyAccess env now2 (.signed ⟨id, now, now + 2592000⟩ sR) =
      .error .invalidSignature := by
  refine ⟨by rw [hA]; rfl, by rw [hR]; rfl, ?_, ?_, ?_, ?_⟩
  · unfold verifyAccess
    rw [hA, verifyJwt_signed_some, if_neg (by simp),
      if_neg (by show ¬(now + 604800 ≤ now2); omega)]
  · unfold verifyRefresh
    rw [hR, verifyJwt_signed_some, if_pos hne]
  · unfold verifyRefresh
    rw [hR, verifyJwt_signed_some, if_neg (by simp),
      if_neg (by show ¬(now + 2592000 ≤ now2); omega)]
  · unfold verifyAccess
    rw [hA, verifyJwt_signed_some, if_pos (fun h => hne h.symm)]

theorem c3_witness :
    generateToken envFull.jwtSecret 0 7 =
      .ok (.signed ⟨7, 0, 604800⟩ "acc") ∧
    generateRefreshToken envFull.jwtRefreshSecret 0 7 =
      .ok (.signed ⟨7, 0, 2592000⟩ "ref") ∧
    verifyAccess envFull 5 (.signed ⟨7, 0, 604800⟩ "acc") = .ok 7 ∧
    verifyRefresh envFull 5 (.signed ⟨7, 0, 604800⟩ "acc") =
      .error .invalidSignature ∧
    verifyRefresh envFull 5 (.signed ⟨7, 0, 2592000⟩ "ref") = .ok 7 ∧
    verifyAccess envFull 5 (.signed ⟨7, 0, 2592000⟩ "ref") =
      .error .invalidSignature :=
  c3_class_separation envFull "acc" "ref" 7 0 5 rfl rfl (by decide)
    (by omega) (by omega)

/-- C8 counterexample: with both signing secrets absent the server still
starts (startup checks only the DB connection), and the failure surfaces
only when a token is first issued — as a 500 on the request, after the
user record was already written. -/
theorem c8_counterexample :
    startup envNoSecrets = true ∧
    generateToken envNoSecrets.jwtSecret 0 0 =
      .error "secretOrPrivateKey must have a value" ∧
    (register envNoSecrets dbEmpty 0 5 reqAnn).1 =
      .failure 500 "secretOrPrivateKey must have a value" :=
  ⟨rfl, rfl, by decide⟩

/-- C8 (amended): startup succeeds exactly when the DB connection string is
present — the signing secrets are not consulted at startup; a missing
access secret surfaces only when a token is issued. -/
theorem c8_startup_checks (env : Env) :
    startup env = env.mongoUri.isSome ∧
    (env.jwtSecret = none → ∀ now id,
      generateToken env.jwtSecret now id =
        .error "secretOrPrivateKey must have a value") := by
  refine ⟨rfl, ?_⟩
  intro h now id
  rw [h]
  rfl

theorem c8_witness :
    generateToken envNoSecrets.jwtSecret 2 3 =
      .error "secretOrPrivateKey must have a value" :=
  (c8_startup_checks envNoSecrets).2 rfl 2 3

/-- C10: any register request whose password is non-empty but shorter than
6 characters fails (the schema's `minlength: 6`, checked on the plaintext
before the pre-save hash) and writes no record. -/
theorem c10_short_password (env : Env) (db : DB) (now salt : Nat)
    (req : RegisterReq) (h1 : req.password ≠ "")
    (h2 : req.password.length < 6) :
    (∃ st m, (register env db now salt req).1 = .failure st m) ∧
    (register env db now salt req).2 = db := by
  rcases register_cases env db now salt req with ⟨st, m, h⟩ | ⟨u, db2, hcu, _⟩
  · exact ⟨⟨st, m, by rw [h]⟩, by rw [h]⟩
  · exfalso
    obtain ⟨_, _, hlen, _⟩ := (createUser_ok_iff db salt req.name req.email
      req.password (req.role.getD .employee) u db2).mp hcu
    omega

theorem c10_witness :
    (∃ st m,
      (register envFull dbEmpty 0 5 ⟨"Al", "al@x.com", "abc", none⟩).1 =
        .failure st m) ∧
    (register envFull dbEmpty 0 5 ⟨"Al", "al@x.com", "abc", none⟩).2 =
      dbEmpty :=
  c10_short_password envFull dbEmpty 0 5 ⟨"Al", "al@x.com", "abc", none⟩
    (by decide) (by decide)

/-- C4 counterexample: the two login failures carry the same status 401
but their messages differ in casing (`Invalid credentials` vs
`invalid credentials`), so the responses are observably distinguishable;
and the no-user path performs zero bcrypt comparisons — it short-circuits
instead of verifying against a dummy hash. -/
theorem c4_counterexample :
    login envFull dbAnn 0 "bob@x.com" "anything" =
      .failure 401 "Invalid credentials" ∧
    login envFull dbAnn 0 "ann@x.com" "wrong1" =
      .failure 401 "invalid credentials" ∧
    login envFull dbAnn 0 "bob@x.com" "anything" ≠
      login envFull dbAnn 0 "ann@x.com" "wrong1" ∧
    loginBcryptCalls dbAnn "bob@x.com" "anything" = 0 ∧
    loginBcryptCalls dbAnn "ann@x.com" "wrong1" = 1 :=
  ⟨by decide, by decide, by decide, by decide, by decide⟩

/-- C4 (amended): both failure paths — unknown email, and known email with
a wrong password — return the same error kind (status 401, `success:false`)
with messages equal up to letter casing; but the responses differ in that
casing, and the no-user path performs no hash comparison. -/
theorem c4_login_failures (env : Env) (db : DB) (now : Nat)
    (email password : String) (hne : email ≠ "") (hpw : password ≠ "")
    (h : findByEmailWithSecret db email = none ∨
         ∃ u, findByEmailWithSecret db email = some u ∧
           u.matchPassword password = false) :
    ∃ m, login env db now email password = .failure 401 m ∧
      strLower m = "invalid credentials" := by
  rcases h with h | ⟨u, hu, hm⟩
  · refine ⟨"Invalid credentials", ?_, by decide⟩
    unfold login
    rw [if_neg (by simp [hne, hpw]), h]
  · refine ⟨"invalid credentials", ?_, by decide⟩
    unfold login
    rw [if_neg (by simp [hne, hpw]), hu]
    simp [hm]

theorem c4_witness :
    ∃ m, login envFull dbAnn 0 "bob@x.com" "anything" = .failure 401 m ∧
      strLower m = "invalid credentials" :=
  c4_login_failures envFull dbAnn 0 "bob@x.com" "anything" (by decide)
    (by decide) (.inl (by decide))

/-- C2: for a refresh token accepted by `verifyRefresh`, the Refresh
operation returns a new access token only — same user id, no user view,
and the refresh token is not rotated; any `verifyRefresh` failure
(expired, bad signature, malformed) yields 401 Unauthorized; a missing
token yields a 400 validation error. -/
theorem c2_refresh_behavior (env : Env) (now : Nat) (t : Token) (uid : Nat)
    (sA : String) (hA : env.jwtSecret = some sA) :
    (verifyRefresh env now t = .ok uid →
      refreshTokenOp env now (some t) =
        .success 200 (.signed ⟨uid, now, now + 604800⟩ sA) none none ∧
      verifyAccess env now (.signed ⟨uid, now, now + 604800⟩ sA) = .ok uid) ∧
    (∀ e, verifyRefresh env now t = .error e →
      refreshTokenOp env now (some t) =
        .failure 401 "Invalid or expired refresh token") ∧
    refreshTokenOp env now none =
      .failure 400 "Please provide a refresh token" := by
  refine ⟨?_, ?_, rfl⟩
  · intro h
    constructor
    · rw [refreshTokenOp_some, h, hA]
      rfl
    · unfold verifyAccess
      rw [hA, verifyJwt_signed_some, if_neg (by simp),
        if_neg (by show ¬(now + 604800 ≤ now); omega)]
  · intro e h
    rw [refreshTokenOp_some, h]

theorem c2_witness :
    refreshTokenOp envFull 1 (some (.signed ⟨42, 0, 100⟩ "ref")) =
      .success 200 (.signed ⟨42, 1, 1 + 604800⟩ "acc") none none ∧
    verifyAccess envFull 1 (.signed ⟨42, 1, 1 + 604800⟩ "acc") = .ok 42 :=
  (c2_refresh_behavior envFull 1 (.signed ⟨42, 0, 100⟩ "ref") 42 "acc"
    rfl).1 rfl

/-- C1 counterexample: the input (name "Ann", well-formed email
"ann\x40x.com", non-empty password "abc", no role) is valid as the claim
states validity, yet Register fails — the schema's `minlength: 6` rejects
the password — and no user is stored, so the claimed Register-then-Login
round trip does not even start. -/
theorem c1_counterexample :
    (register envFull dbEmpty 0 5 ⟨"Ann", "ann@x.com", "abc", none⟩).1 =
      .failure 500
        "Path password is shorter than the minimum allowed length (6)" ∧
    (register envFull dbEmpty 0 5 ⟨"Ann", "ann@x.com", "abc", none⟩).2 =
      dbEmpty :=
  ⟨by decide, by decide⟩

/-- C1 (amended): for a registration input with a non-blank name, a
well-formed email, a password of length ≥ 6, an optional role, both
signing secrets configured, and the email not yet registered: Register
succeeds (201), and a subsequent Login with the same email and password
succeeds (200) and returns the same user view, whose email is the
normalized registered email and whose role is the specified one or
`employee` when none was given. -/
theorem c1_register_then_login (env : Env) (db : DB) (now salt now2 : Nat)
    (req : RegisterReq) (sA sR : String)
    (hA : env.jwtSecret = some sA) (hR : env.jwtRefreshSecret = some sR)
    (hname : strTrim req.name ≠ "") (hemail : req.email ≠ "")
    (hval : validEmail (normalizeEmail req.email) = true)
    (hpw : 6 ≤ req.password.length)
    (hfresh : findByEmail db req.email = none) :
    ∃ tok rtok u,
      (register env db now salt req).1 =
        .success 201 tok (some rtok) (some (publicView u)) ∧
      u.email = normalizeEmail req.email ∧
      u.role = req.role.getD .employee ∧
      ∃ tok2 rtok2,
        login env (register env db now salt req).2 now2 req.email
            req.password =
          .success 200 tok2 (some rtok2) (some (publicView u)) := by
  have hreg := register_success_eq env db now salt req sA sR hA hR hname
    hemail hval hpw hfresh
  refine ⟨.signed ⟨db.nextId, now, now + 604800⟩ sA,
    .signed ⟨db.nextId, now, now + 2592000⟩ sR, newUser db salt req,
    ?_, rfl, rfl, ?_⟩
  · rw [hreg]
  · have hf0 := findByEmail_none db req.email hfresh
    unfold findByEmailWithSecret at hf0
    have hfind : findByEmailWithSecret (register env db now salt req).2
        req.email = some (newUser db salt req) := by
      rw [hreg]
      unfold findByEmailWithSecret
      show (db.users ++ [newUser db salt req]).find?
        (fun u => u.email == normalizeEmail req.email) = _
      rw [List.find?_append, hf0]
      simp [newUser]
    exact ⟨_, _, login_success_eq env _ now2 req.email req.password
      (newUser db salt req) sA sR hA hR hemail
      (password_ne_empty_of_len hpw) hfind
      (by simp [StoredUser.matchPassword, newUser, bcryptCompare_hash_self])⟩

theorem c1_witness :
    ∃ tok rtok u,
      (register envFull dbEmpty 0 5 reqAnn).1 =
        .success 201 tok (some rtok) (some (publicView u)) ∧
      u.email = normalizeEmail reqAnn.email ∧
      u.role = reqAnn.role.getD .employee ∧
      ∃ tok2 rtok2,
        login envFull (register envFull dbEmpty 0 5 reqAnn).2 9 reqAnn.email
            reqAnn.password =
          .success 200 tok2 (some rtok2) (some (publicView u)) :=
  c1_register_then_login envFull dbEmpty 0 5 9 reqAnn "acc" "ref" rfl rfl
    (by decide) (by decide) (by decide) (by decide) (by decide)

/-- C5: after a successful registration, a second registration with the
same email in any casing (same normalized email; other fields present)
fails with the duplicate-identity error and writes nothing; and every
store state reachable by the operations of this core keeps emails unique. -/
theorem c5_unique_email :
    (∀ env env2 db now salt req now2 salt2 req2 st tok rtok v,
      (register env db now salt req).1 = .success st tok rtok v →
      normalizeEmail req2.email = normalizeEmail req.email →
      req2.name ≠ "" → req2.password ≠ "" →
      (register env2 (register env db now salt req).2 now2 salt2 req2).1 =
        .failure 400 "Email already registered" ∧
      (register env2 (register env db now salt req).2 now2 salt2 req2).2 =
        (register env db now salt req).2) ∧
    (∀ db, Reachable db → emailsUnique db) := by
  constructor
  · intro env env2 db now salt req now2 salt2 req2 st tok rtok v hsuc hnorm
      hname2 hpw2
    rcases register_cases env db now salt req with ⟨st3, m3, h3⟩ |
      ⟨u, db2, hcu, hrest⟩
    · rw [h3] at hsuc; cases hsuc
    · obtain ⟨_, hval, _, hfreshdb, hu, hdb2⟩ :=
        (createUser_ok_iff db salt req.name req.email req.password
          (req.role.getD .employee) u db2).mp hcu
      rcases hrest with ⟨m3, h3⟩ | ⟨tok3, rtok3, h3⟩
      · rw [h3] at hsuc; cases hsuc
      · have hemail2 : req2.email ≠ "" := by
          intro he
          rw [he] at hnorm
          have : validEmail (normalizeEmail "") = false := by decide
          rw [hnorm] at this
          rw [hval] at this
          cases this
        have hfind2 : findByEmail (register env db now salt req).2 req2.email
            = some (publicView u) := by
          rw [h3]
          unfold findByEmail findByEmailWithSecret
          rw [hdb2]
          show ((db.users ++ [u]).find?
            (fun w => w.email == normalizeEmail req2.email)).map publicView
              = _
          rw [hnorm, List.find?_append]
          have hnone : db.users.find?
              (fun w => w.email == normalizeEmail req.email) = none := by
            rw [List.find?_eq_none]
            intro w hw
            simpa using hfreshdb w hw
          rw [hnone]
          have : u.email == normalizeEmail req.email := by
            rw [hu]
            exact beq_self_eq_true _
          simp [List.find?, this]
        have hdup := register_dup env2 (register env db now salt req).2
          now2 salt2 req2 hname2 hemail2 hpw2 (publicView u) hfind2
        exact ⟨by rw [hdup], by rw [hdup]⟩
  · intro db h
    induction h with
    | init => exact List.Pairwise.nil
    | step env db now salt req hdb ih =>
      rcases register_cases env db now salt req with ⟨st3, m3, h3⟩ |
        ⟨u, db2, hcu, hrest⟩
      · rw [h3]; exact ih
      · obtain ⟨_, _, _, hfreshdb, hu, hdb2⟩ :=
          (createUser_ok_iff db salt req.name req.email req.password
            (req.role.getD .employee) u db2).mp hcu
        have hdbeq : (register env db now salt req).2 = db2 := by
          rcases hrest with ⟨m3, h3⟩ | ⟨tok3, rtok3, h3⟩ <;> rw [h3]
        rw [hdbeq, hdb2]
        unfold emailsUnique
        show (db.users ++ [u]).Pairwise _
        rw [List.pairwise_append]
        refine ⟨ih, List.pairwise_singleton _ _, ?_⟩
        intro a ha b hb
        have hb1 : b = u := by simpa using hb
        rw [hb1, hu]
        exact hfreshdb a ha

theorem c5_witness :
    (register envFull (register envFull dbEmpty 0 5 reqAnn).2 1 6
        ⟨"Ann2", " ANN@x.com", "secret456", some .admin⟩).1 =
      .failure 400 "Email already registered" ∧
    (register envFull (register envFull dbEmpty 0 5 reqAnn).2 1 6
        ⟨"Ann2", " ANN@x.com", "secret456", some .admin⟩).2 =
      (register envFull dbEmpty 0 5 reqAnn).2 :=
  c5_unique_email.1 envFull envFull dbEmpty 0 5 reqAnn 1 6
    ⟨"Ann2", " ANN@x.com", "secret456", some .admin⟩ 201
    (.signed ⟨0, 0, 604800⟩ "acc") (some (.signed ⟨0, 0, 2592000⟩ "ref"))
    (some ⟨0, "Ann", "ann@x.com", .employee⟩)
    (by decide) (by decide) (by decide) (by decide)

/-- C6: responses never contain the password hash — a default read is
exactly the public projection (id, name, email, role) of the with-secret
read; every user view in a successful register or login response is the
public projection of a stored record; and the refresh operation returns
neither a user view nor a refresh token. -/
theorem c6_no_password_in_responses :
    (∀ db e, findByEmail db e = (findByEmailWithSecret db e).map publicView) ∧
    (∀ env db now salt req st tok rtok v,
      (register env db now salt req).1 = .success st tok rtok (some v) →
      ∃ u, u ∈ (register env db now salt req).2.users ∧ v = publicView u) ∧
    (∀ env db now e p st tok rtok v,
      login env db now e p = .success st tok rtok (some v) →
      ∃ u, u ∈ db.users ∧ v = publicView u) ∧
    (∀ env now t st tok rtok v,
      refreshTokenOp env now t = .success st tok rtok v →
      rtok = none ∧ v = none) := by
  refine ⟨fun db e => rfl, ?_, ?_, ?_⟩
  · intro env db now salt req st tok rtok v h
    rcases register_cases env db now salt req with ⟨st3, m3, h3⟩ |
      ⟨u, db2, hcu, hrest⟩
    · rw [h3] at h; cases h
    · rcases hrest with ⟨m3, h3⟩ | ⟨tok3, rtok3, h3⟩
      · rw [h3] at h; cases h
      · obtain ⟨_, _, _, _, _, hdb2⟩ :=
          (createUser_ok_iff db salt req.name req.email req.password
            (req.role.getD .employee) u db2).mp hcu
        rw [h3] at h
        injection h with h1 h2 h3x h4
        refine ⟨u, ?_, (Option.some.inj h4).symm⟩
        rw [h3, hdb2]
        simp
  · intro env db now e p st tok rtok v h
    obtain ⟨u, hfind, hv, _⟩ := login_success_inv env db now e p st tok rtok
      (some v) h
    exact ⟨u, List.mem_of_find?_eq_some hfind, Option.some.inj hv⟩
  · intro env now t st tok rtok v h
    match t with
    | none => cases h
    | some t2 =>
      rw [refreshTokenOp_some] at h
      split at h
      · cases h
      · split at h
        · cases h
        · injection h with h1 h2 h3 h4
          exact ⟨h3.symm, h4.symm⟩

theorem c6_witness :
    ∃ u, u ∈ (register envFull dbEmpty 0 5 reqAnn).2.users ∧
      (⟨0, "Ann", "ann@x.com", Role.employee⟩ : UserView) = publicView u :=
  c6_no_password_in_responses.2.1 envFull dbEmpty 0 5 reqAnn 201
    (.signed ⟨0, 0, 604800⟩ "acc") (some (.signed ⟨0, 0, 2592000⟩ "ref"))
    ⟨0, "Ann", "ann@x.com", .employee⟩ (by decide)

/-- C9 counterexample: with the access signing secret absent, a valid
registration commits its store write and then fails signing the token:
the request fails (500) yet the user record was written — an internal
error does leave a committed write behind. -/
theorem c9_counterexample :
    (register envNoSecrets dbEmpty 0 7 reqBob).1 =
      .failure 500 "secretOrPrivateKey must have a value" ∧
    (register envNoSecrets dbEmpty 0 7 reqBob).2 =
      ⟨[⟨0, "Bob", "bob@y.com", bcryptHash 7 "hunter22", .admin⟩], 1⟩ :=
  ⟨by decide, by decide⟩

/-- C9 (amended): a Register failing with a 400-class error
(ValidationError or DuplicateIdentity) writes nothing; and when both
signing secrets are configured, every failing Register writes nothing —
only a token-signing failure after the create (possible precisely when a
secret is missing) leaves the new record committed. -/
theorem c9_failure_atomicity (env : Env) (db : DB) (now salt : Nat)
    (req : RegisterReq) :
    (∀ m, (register env db now salt req).1 = .failure 400 m →
      (register env db now salt req).2 = db) ∧
    (env.jwtSecret.isSome → env.jwtRefreshSecret.isSome →
      ∀ st m, (register env db now salt req).1 = .failure st m →
        (register env db now salt req).2 = db) := by
  constructor
  · intro m h
    rcases register_cases env db now salt req with ⟨st3, m3, h3⟩ |
      ⟨u, db2, hcu, hrest⟩
    · rw [h3]
    · rcases hrest with ⟨m3, h3⟩ | ⟨tok3, rtok3, h3⟩
      · rw [h3] at h
        injection h with h1 h2
        cases h1
      · rw [h3] at h; cases h
  · intro hA hR st m h
    rcases Option.isSome_iff_exists.mp hA with ⟨sA, hsA⟩
    rcases Option.isSome_iff_exists.mp hR with ⟨sR, hsR⟩
    rcases register_cases env db now salt req with ⟨st3, m3, h3⟩ |
      ⟨u, db2, hcu, hrest⟩
    · rw [h3]
    · exfalso
      rcases hrest with ⟨m3, h3⟩ | ⟨tok3, rtok3, h3⟩
      · unfold register at h3
        split at h3
        · cases h3
        · split at h3
          · cases h3
          · split at h3
            · rename_i hce
              rw [hcu] at hce
              cases hce
            · rw [hsA] at h3
              split at h3
              · rename_i hgen
                cases hgen
              · rw [hsR] at h3
                split at h3
                · rename_i hgen
                  cases hgen
                · cases h3
      · rw [h3] at h; cases h

theorem c9_witness :
    (register envFull dbEmpty 0 5
      (⟨"", "e@x.com", "secret123", none⟩ : RegisterReq)).2 = dbEmpty :=
  (c9_failure_atomicity envFull dbEmpty 0 5
    ⟨"", "e@x.com", "secret123", none⟩).1
    "Please provide name, email, and password" (by decide)

end ISTD
